import Mathlib

/-!
Shallow embedding of the ComplianceSync compliance backend (Go, Firestore).

The embedding translates the Go source files `internal/models/*.go`,
`internal/store/firestore.go`, and the HTTP handlers in `internal/api/*.go`:

* Machine integers (`int`, `int64`) are modelled as `Int`.
* `time.Time` values are modelled as `Int` seconds since an arbitrary epoch;
  `*time.Time` (nullable) is `Option Int`.  `time.Now()` becomes an explicit
  `now : Int` parameter threaded through each operation, and the generated
  UUIDs become explicit fresh-id parameters.
* The Firestore document store is a `Store` record holding one list per
  collection.  Documents under `organizations/{org}/requirements/{id}` (and
  the other tenant-scoped subcollections) are keyed by the pair
  (organizationId, id); the top-level `users` collection is keyed by `uid`
  alone, exactly as in the source.  A Firestore `Set` is an upsert on the
  document key, an `Update` mutates the document when it exists and is an
  error (swallowed by the callers that ignore it) when it does not.
* Free-form `map[string]interface{}` fields (audit `Changes`/`Metadata`,
  evidence `Metadata`), float fields (`MonthlyPrice`), IP/user-agent
  strings and the external Firebase / Cloud Storage calls carry no
  information relevant to the verified properties and are omitted.
* HTTP handlers return the updated `Store` together with the observable
  response `(status code, optional error message)`.
-/

namespace ComplianceSync

/-- Compliance status of a requirement (`RequirementStatus` in
`internal/models`, a Go string enum). -/
inductive RequirementStatus where
  | notStarted
  | inProgress
  | compliant
  | atRisk
  | nonCompliant
deriving DecidableEq, Repr

/-- Tenant-scoped activation of a requirement template (`models.Requirement`). -/
structure Requirement where
  id : String
  organizationId : String
  templateId : String
  title : String
  description : String
  category : String
  authority : String
  evidenceTypes : List String
  frequency : String
  status : RequirementStatus
  nextDueDate : Option Int
  lastCompletedDate : Option Int
  evidenceCount : Int
  notes : String
  activatedAt : Int
  activatedBy : String
  updatedAt : Int
  updatedBy : String
  isActive : Bool
deriving DecidableEq, Repr

/-- `(*Requirement).CalculateStatus` from `internal/models` (part_007,
lines 83-110).  Go computes `daysUntilDue := int(r.NextDueDate.Sub(now).Hours() / 24)`,
a float division truncated toward zero; with times in seconds this is
`Int.tdiv (due - now) 86400` (truncating division). -/
def Requirement.calculateStatus (r : Requirement) (now : Int) : RequirementStatus :=
  if r.evidenceCount = 0 then
    .notStarted
  else
    match r.nextDueDate with
    | none =>
        -- Ongoing requirements
        if r.evidenceCount > 0 then .compliant else .notStarted
    | some due =>
        let daysUntilDue := Int.tdiv (due - now) 86400
        if daysUntilDue < 0 then
          -- Past due
          .nonCompliant
        else if daysUntilDue ≤ 7 then
          -- Due within 7 days
          .atRisk
        else if r.evidenceCount > 0 then
          .compliant
        else
          .inProgress

/-- A piece of compliance evidence (`models.Evidence`).  The free-form
`Metadata` map and `ExternalLink` are omitted (unused by the verified
properties); `Status` is the Go string enum "uploading" / "active" /
"deleted". -/
structure Evidence where
  id : String
  organizationId : String
  title : String
  description : String
  source : String
  evidenceDate : Int
  fileURL : String
  fileName : String
  fileSize : Int
  fileType : String
  requirementIds : List String
  uploadedBy : String
  createdAt : Int
  updatedAt : Int
  status : String
deriving DecidableEq, Repr

/-- A user account (`models.User`).  Stored in the top-level `users`
collection keyed by `uid` alone (not tenant-scoped). -/
structure User where
  uid : String
  email : String
  fullName : String
  organizationId : String
  role : String
  status : String
  emailVerified : Bool
  createdAt : Int
  updatedAt : Int
  lastLoginAt : Option Int
deriving DecidableEq, Repr

/-- Subscription details (`models.Subscription`).  The Stripe ids, billing
period and the float `MonthlyPrice` are omitted. -/
structure Subscription where
  tier : String
  status : String
  cancelAtPeriodEnd : Bool
  maxUsers : Int
deriving DecidableEq, Repr

/-- A customer organization (`models.Organization`). -/
structure Organization where
  id : String
  name : String
  industry : String
  employeeCount : String
  regulatoryFramework : String
  website : String
  address : String
  phone : String
  subscription : Subscription
  createdAt : Int
  updatedAt : Int
  updatedBy : String
  activeUserCount : Int
deriving DecidableEq, Repr

/-- An audit log entry (`models.AuditLog`).  The generated UUID `ID`, the
free-form `Changes` / `Metadata` maps and the IP / user-agent strings are
omitted; `Timestamp` is always server-assigned by `CreateAuditLog`. -/
structure AuditLog where
  organizationId : String
  timestamp : Int
  userId : String
  userEmail : String
  action : String
  resourceType : String
  resourceId : String
  description : String
deriving DecidableEq, Repr

/-- A generated compliance report (`models.Report`). -/
structure Report where
  id : String
  organizationId : String
  title : String
  description : String
  reportType : String
  requirementIds : List String
  status : String
  fileURL : String
  generatedBy : String
  createdAt : Int
deriving DecidableEq, Repr

/-- A pre-built regulatory requirement template (`models.RequirementTemplate`);
global, not tenant-scoped. -/
structure RequirementTemplate where
  id : String
  title : String
  description : String
  category : String
  regulatoryFramework : String
  authority : String
  evidenceTypes : List String
  frequency : String
  isActive : Bool
deriving DecidableEq, Repr

/-- Verified JWT claims (`auth.UserClaims`). -/
structure UserClaims where
  uid : String
  email : String
  emailVerified : Bool
  organizationId : String
  role : String
deriving DecidableEq, Repr

/-- The Firestore document store, one list per collection.  Tenant-scoped
collections (`organizations/{org}/requirements` etc.) are flattened with the
pair (organizationId, id) as the document key; `users` is top-level keyed by
`uid`, and `organizations` by `id`, as in `internal/store/firestore.go`. -/
structure Store where
  organizations : List Organization
  users : List User
  requirements : List Requirement
  evidence : List Evidence
  auditLogs : List AuditLog
  reports : List Report
  templates : List RequirementTemplate
deriving DecidableEq, Repr

/-- `GetRequirementTemplate`: lookup in the top-level
`requirement_templates` collection. -/
def getRequirementTemplate (s : Store) (templateId : String) : Option RequirementTemplate :=
  s.templates.find? (fun t => t.id == templateId)

/-- Document key match for a requirement under
`organizations/{orgId}/requirements/{reqId}`. -/
def reqKey (orgId reqId : String) (r : Requirement) : Bool :=
  r.organizationId == orgId && r.id == reqId

/-- Document key match for an evidence item under
`organizations/{orgId}/evidence/{evidenceId}`. -/
def evKey (orgId evidenceId : String) (e : Evidence) : Bool :=
  e.organizationId == orgId && e.id == evidenceId

/-- `GetOrganization`: lookup in the top-level `organizations` collection. -/
def getOrganization (s : Store) (orgId : String) : Option Organization :=
  s.organizations.find? (fun o => o.id == orgId)

/-- `GetUser`: lookup in the top-level `users` collection by UID — note, not
scoped by tenant. -/
def getUser (s : Store) (uid : String) : Option User :=
  s.users.find? (fun u => u.uid == uid)

/-- `UpdateUser`: sets `updated_at` and writes the document at `users/{uid}`
(a Firestore `Set`, i.e. an upsert on the key). -/
def updateUser (s : Store) (user : User) (now : Int) : Store :=
  let user := { user with updatedAt := now }
  { s with users :=
      if s.users.any (fun u => u.uid == user.uid) then
        s.users.map (fun u => if u.uid == user.uid then user else u)
      else
        s.users ++ [user] }

/-- `ListUsersByOrganization`: all users whose `organization_id` matches —
with no filter on `status`. -/
def listUsersByOrganization (s : Store) (orgId : String) : List User :=
  s.users.filter (fun u => u.organizationId == orgId)

/-- `UpdateOrganization`: sets `updated_at` and writes the document. -/
def updateOrganization (s : Store) (org : Organization) (now : Int) : Store :=
  let org := { org with updatedAt := now }
  { s with organizations :=
      if s.organizations.any (fun o => o.id == org.id) then
        s.organizations.map (fun o => if o.id == org.id then org else o)
      else
        s.organizations ++ [org] }

/-- `GetRequirement`: lookup at `organizations/{orgId}/requirements/{reqID}`. -/
def getRequirement (s : Store) (orgId reqId : String) : Option Requirement :=
  s.requirements.find? (reqKey orgId reqId)

/-- `CreateRequirement`: assigns a fresh id (`newId`, for `uuid.New()`),
stamps timestamps, forces `status = NotStarted`, `evidence_count = 0`,
`is_active = true`, and writes the document. -/
def createRequirement (s : Store) (req : Requirement) (newId : String) (now : Int) :
    Store × Requirement :=
  let req := { req with
    id := newId
    activatedAt := now
    updatedAt := now
    status := .notStarted
    evidenceCount := 0
    isActive := true }
  ({ s with requirements := s.requirements ++ [req] }, req)

/-- `UpdateRequirement`: sets `updated_at` and `Set`s the document at its
key (upsert). -/
def updateRequirement (s : Store) (req : Requirement) (now : Int) : Store :=
  let req := { req with updatedAt := now }
  { s with requirements :=
      if s.requirements.any (reqKey req.organizationId req.id) then
        s.requirements.map (fun r => if reqKey req.organizationId req.id r then req else r)
      else
        s.requirements ++ [req] }

/-- `incrementRequirementEvidenceCount`: a Firestore `Update` with
`firestore.Increment(1)` on `evidence_count` plus `updated_at`.  When the
document does not exist the `Update` fails; every caller ignores that error,
so the state is simply unchanged. -/
def incrementRequirementEvidenceCount (s : Store) (orgId reqId : String) (now : Int) : Store :=
  { s with requirements := s.requirements.map (fun r =>
      if reqKey orgId reqId r then
        { r with evidenceCount := r.evidenceCount + 1, updatedAt := now }
      else r) }

/-- `decrementRequirementEvidenceCount`: `firestore.Increment(-1)` on
`evidence_count`; same error policy as the increment. -/
def decrementRequirementEvidenceCount (s : Store) (orgId reqId : String) (now : Int) : Store :=
  { s with requirements := s.requirements.map (fun r =>
      if reqKey orgId reqId r then
        { r with evidenceCount := r.evidenceCount - 1, updatedAt := now }
      else r) }

/-- `GetEvidence`: lookup at `organizations/{orgId}/evidence/{evidenceID}`. -/
def getEvidence (s : Store) (orgId evidenceId : String) : Option Evidence :=
  s.evidence.find? (evKey orgId evidenceId)

/-- `CreateEvidence`: assigns a fresh id and timestamps, writes the document,
then best-effort increments `evidence_count` for every id in
`evidence.RequirementIDs` (failures logged, never propagated). -/
def createEvidence (s : Store) (evidence : Evidence) (newId : String) (now : Int) :
    Store × Evidence :=
  let evidence := { evidence with id := newId, createdAt := now, updatedAt := now }
  let s := { s with evidence := s.evidence ++ [evidence] }
  let s := evidence.requirementIds.foldl
    (fun t reqId => incrementRequirementEvidenceCount t evidence.organizationId reqId now) s
  (s, evidence)

/-- `ListEvidence`: always filtered to `status == "active"` within the
tenant; the handler additionally passes at most an equality filter on
`source`, modelled by the optional `sourceFilter`. -/
def listEvidence (s : Store) (orgId : String) (sourceFilter : Option String) : List Evidence :=
  s.evidence.filter (fun e =>
    e.organizationId == orgId && e.status == "active" &&
    (match sourceFilter with
     | none => true
     | some src => e.source == src))

/-- `UpdateEvidence`: sets `updated_at` and `Set`s the document — a plain
document write with no counter adjustment. -/
def updateEvidence (s : Store) (evidence : Evidence) (now : Int) : Store :=
  let evidence := { evidence with updatedAt := now }
  { s with evidence :=
      if s.evidence.any (evKey evidence.organizationId evidence.id) then
        s.evidence.map (fun e => if evKey evidence.organizationId evidence.id e then evidence else e)
      else
        s.evidence ++ [evidence] }

/-- `DeleteEvidence`: reads the evidence (error when absent), flips its
`status` to "deleted" keeping the record and file reference, then
best-effort decrements `evidence_count` for every previously associated
requirement id.  Returns the new store and whether the call succeeded. -/
def deleteEvidence (s : Store) (orgId evidenceId : String) (now : Int) : Store × Bool :=
  match getEvidence s orgId evidenceId with
  | none => (s, false)
  | some evidence =>
      let s := { s with evidence := s.evidence.map (fun e =>
        if evKey orgId evidenceId e then
          { e with status := "deleted", updatedAt := now }
        else e) }
      let s := evidence.requirementIds.foldl
        (fun t reqId => decrementRequirementEvidenceCount t orgId reqId now) s
      (s, true)

/-- `CreateAuditLog`: assigns a server timestamp and appends the entry; no
update or delete operation on `audit_logs` exists anywhere in the store. -/
def createAuditLog (s : Store) (log : AuditLog) (now : Int) : Store :=
  { s with auditLogs := s.auditLogs ++ [{ log with timestamp := now }] }

/-- `GetReport`: lookup at `organizations/{orgId}/reports/{reportID}`. -/
def getReport (s : Store) (orgId reportId : String) : Option Report :=
  s.reports.find? (fun r => r.organizationId == orgId && r.id == reportId)

/-- `CreateReport`: assigns a fresh id and `created_at`, writes the document. -/
def createReport (s : Store) (report : Report) (newId : String) (now : Int) :
    Store × Report :=
  let report := { report with id := newId, createdAt := now }
  ({ s with reports := s.reports ++ [report] }, report)

/-! ## HTTP handlers (`internal/api`)

Each handler takes the current store, the verified claims and the decoded
request fields, plus explicit `now` / fresh-id parameters for `time.Now()`
and `uuid.New()`.  It returns the updated store and the observable response:
the HTTP status code together with the error message (`none` on success).
Authentication (`auth.GetUserClaims`) and JSON decoding happen before the
logic modelled here; their failure paths touch no state. -/

/-- `handleCreateRequirement` (part_008, lines 42-104): activates a template
into a tenant-owned requirement, then writes one audit entry. -/
def handleCreateRequirement (s : Store) (claims : UserClaims)
    (templateId notes : String) (newId : String) (now : Int) :
    Store × Nat × Option String :=
  match getRequirementTemplate s templateId with
  | none => (s, 404, some "requirement template not found")
  | some template =>
      let requirement : Requirement :=
        { id := ""
          organizationId := claims.organizationId
          templateId := template.id
          title := template.title
          description := template.description
          category := template.category
          authority := template.authority
          evidenceTypes := template.evidenceTypes
          frequency := template.frequency
          status := .notStarted
          nextDueDate := none
          lastCompletedDate := none
          evidenceCount := 0
          notes := notes
          activatedAt := 0
          activatedBy := claims.uid
          updatedAt := 0
          updatedBy := ""
          isActive := true }
      let (s, requirement) := createRequirement s requirement newId now
      let s := createAuditLog s
        { organizationId := claims.organizationId
          timestamp := 0
          userId := claims.uid
          userEmail := claims.email
          action := "requirement_activated"
          resourceType := "requirement"
          resourceId := requirement.id
          description := "Activated requirement: " ++ requirement.title } now
      (s, 201, none)

/-- `handleGetRequirement` (part_008, lines 132-153): reads a requirement;
the status recomputation happens on the response copy only, the store is
untouched. -/
def handleGetRequirement (s : Store) (claims : UserClaims) (requirementId : String) :
    Store × Nat × Option String :=
  match getRequirement s claims.organizationId requirementId with
  | none => (s, 404, some "requirement not found")
  | some _ => (s, 200, none)

/-- `handleUpdateRequirement` (part_008, lines 156-209).  The request also
decodes `next_due_date` and `status` fields (`nextDueDate`, `statusField`
here), but the handler body never applies them: only `Notes` and
`UpdatedBy` are written. -/
def handleUpdateRequirement (s : Store) (claims : UserClaims) (requirementId : String)
    (notes : String) (nextDueDate : Option Int) (statusField : RequirementStatus)
    (now : Int) : Store × Nat × Option String :=
  match getRequirement s claims.organizationId requirementId with
  | none => (s, 404, some "requirement not found")
  | some requirement =>
      let requirement := { requirement with notes := notes, updatedBy := claims.uid }
      let s := updateRequirement s requirement now
      let s := createAuditLog s
        { organizationId := claims.organizationId
          timestamp := 0
          userId := claims.uid
          userEmail := claims.email
          action := "requirement_updated"
          resourceType := "requirement"
          resourceId := requirement.id
          description := "Updated requirement: " ++ requirement.title } now
      (s, 200, none)

/-- `handleDeactivateRequirement` (part_008, lines 212-253): sets
`is_active = false`, writes the document and one audit entry. -/
def handleDeactivateRequirement (s : Store) (claims : UserClaims)
    (requirementId : String) (now : Int) : Store × Nat × Option String :=
  match getRequirement s claims.organizationId requirementId with
  | none => (s, 404, some "requirement not found")
  | some requirement =>
      let requirement := { requirement with isActive := false, updatedBy := claims.uid }
      let s := updateRequirement s requirement now
      let s := createAuditLog s
        { organizationId := claims.organizationId
          timestamp := 0
          userId := claims.uid
          userEmail := claims.email
          action := "requirement_deactivated"
          resourceType := "requirement"
          resourceId := requirement.id
          description := "Deactivated requirement: " ++ requirement.title } now
      (s, 200, none)

/-- File types accepted by `handleGenerateUploadURL`. -/
def allowedFileTypes : List String :=
  [ "application/pdf"
  , "application/msword"
  , "application/vnd.openxmlformats-officedocument.wordprocessingml.document"
  , "application/vnd.ms-excel"
  , "application/vnd.openxmlformats-officedocument.spreadsheetml.sheet"
  , "image/png"
  , "image/jpeg" ]

/-- `handleGenerateUploadURL` (evidence_handlers.go, lines 17-111):
validates size and type, then creates a pending evidence record in
"uploading" status with an empty association list.  `evidenceId` is the
UUID generated in the handler (and returned to the client); `storeId` is
the second UUID that `store.CreateEvidence` assigns to the document,
overwriting `evidence.ID`.  The signed-URL generation is external. -/
def handleGenerateUploadURL (s : Store) (claims : UserClaims)
    (fileName fileType : String) (fileSize : Int)
    (evidenceId storeId : String) (now : Int) : Store × Nat × Option String :=
  if fileSize > 25 * 1024 * 1024 then
    (s, 400, some "file size exceeds maximum of 25MB")
  else if !(allowedFileTypes.contains fileType) then
    (s, 400, some "unsupported file type")
  else
    let evidence : Evidence :=
      { id := evidenceId
        organizationId := claims.organizationId
        title := ""
        description := ""
        source := ""
        evidenceDate := 0
        fileURL := claims.organizationId ++ "/evidence/" ++ evidenceId ++ "-" ++ fileName
        fileName := fileName
        fileSize := fileSize
        fileType := fileType
        requirementIds := []
        uploadedBy := claims.uid
        createdAt := 0
        updatedAt := 0
        status := "uploading" }
    let (s, _) := createEvidence s evidence storeId now
    (s, 200, none)

/-- `handleCreateEvidence` (evidence_handlers.go, lines 114-180): completes
an upload.  It reads the pending evidence record, sets
title / description / evidence date / associations / source and flips the
status to "active", writes it back with `store.UpdateEvidence` (a plain
document write), and appends one audit entry.  The evidence date arrives
already parsed (`time.Parse` failures are rejected before any state is
touched). -/
def handleCreateEvidence (s : Store) (claims : UserClaims)
    (evidenceId title description : String) (evidenceDate : Int)
    (requirementIds : List String) (now : Int) : Store × Nat × Option String :=
  match getEvidence s claims.organizationId evidenceId with
  | none => (s, 404, some "evidence not found")
  | some evidence =>
      let evidence := { evidence with
        title := title
        description := description
        evidenceDate := evidenceDate
        requirementIds := requirementIds
        source := "manual_upload"
        status := "active" }
      let s := updateEvidence s evidence now
      let s := createAuditLog s
        { organizationId := claims.organizationId
          timestamp := 0
          userId := claims.uid
          userEmail := claims.email
          action := "evidence_created"
          resourceType := "evidence"
          resourceId := evidence.id
          description := "Uploaded evidence: " ++ evidence.title } now
      (s, 201, none)

/-- `handleGetEvidence` (evidence_handlers.go, lines 209-241): reads one
evidence item and appends an `evidence_viewed` audit entry on success. -/
def handleGetEvidence (s : Store) (claims : UserClaims) (evidenceId : String)
    (now : Int) : Store × Nat × Option String :=
  match getEvidence s claims.organizationId evidenceId with
  | none => (s, 404, some "evidence not found")
  | some evidence =>
      let s := createAuditLog s
        { organizationId := claims.organizationId
          timestamp := 0
          userId := claims.uid
          userEmail := claims.email
          action := "evidence_viewed"
          resourceType := "evidence"
          resourceId := evidence.id
          description := "Viewed evidence: " ++ evidence.title } now
      (s, 200, none)

/-- `handleUpdateEvidence` (evidence_handlers.go, lines 244-305): replaces
title, description and the requirement-association set, writes the document
back with `store.UpdateEvidence` and appends one audit entry.  No counter
is adjusted anywhere on this path. -/
def handleUpdateEvidence (s : Store) (claims : UserClaims)
    (evidenceId title description : String) (requirementIds : List String)
    (now : Int) : Store × Nat × Option String :=
  match getEvidence s claims.organizationId evidenceId with
  | none => (s, 404, some "evidence not found")
  | some evidence =>
      let evidence := { evidence with
        title := title
        description := description
        requirementIds := requirementIds }
      let s := updateEvidence s evidence now
      let s := createAuditLog s
        { organizationId := claims.organizationId
          timestamp := 0
          userId := claims.uid
          userEmail := claims.email
          action := "evidence_updated"
          resourceType := "evidence"
          resourceId := evidence.id
          description := "Updated evidence: " ++ evidence.title } now
      (s, 200, none)

/-- `handleDeleteEvidence` (evidence_handlers.go, lines 308-350): reads the
evidence, soft deletes it via `store.DeleteEvidence`, and appends one audit
entry. -/
def handleDeleteEvidence (s : Store) (claims : UserClaims) (evidenceId : String)
    (now : Int) : Store × Nat × Option String :=
  match getEvidence s claims.organizationId evidenceId with
  | none => (s, 404, some "evidence not found")
  | some evidence =>
      let (s, _) := deleteEvidence s claims.organizationId evidenceId now
      let s := createAuditLog s
        { organizationId := claims.organizationId
          timestamp := 0
          userId := claims.uid
          userEmail := claims.email
          action := "evidence_deleted"
          resourceType := "evidence"
          resourceId := evidence.id
          description := "Deleted evidence: " ++ evidence.title } now
      (s, 200, none)

/-- `handleUpdateOrganization` (part_010, lines 246-308): rewrites the
organization profile fields and appends one audit entry. -/
def handleUpdateOrganization (s : Store) (claims : UserClaims)
    (name industry employeeCount regulatoryFramework website address phone : String)
    (now : Int) : Store × Nat × Option String :=
  match getOrganization s claims.organizationId with
  | none => (s, 404, some "organization not found")
  | some org =>
      let org := { org with
        name := name
        industry := industry
        employeeCount := employeeCount
        regulatoryFramework := regulatoryFramework
        website := website
        address := address
        phone := phone
        updatedBy := claims.uid }
      let s := updateOrganization s org now
      let s := createAuditLog s
        { organizationId := org.id
          timestamp := 0
          userId := claims.uid
          userEmail := claims.email
          action := "organization_updated"
          resourceType := "organization"
          resourceId := org.id
          description := "Organization profile updated" } now
      (s, 200, none)

/-- `handleUpdateProfile` (part_010, lines 188-221): sets the caller's full
name.  No audit entry is written on this path. -/
def handleUpdateProfile (s : Store) (claims : UserClaims) (fullName : String)
    (now : Int) : Store × Nat × Option String :=
  match getUser s claims.uid with
  | none => (s, 404, some "user not found")
  | some user =>
      let user := { user with fullName := fullName }
      let s := updateUser s user now
      (s, 200, none)

/-- Capacity error produced by `handleInviteUser` when the seat limit is
reached; it names the current limit. -/
def userLimitMessage (maxUsers : Int) : String :=
  "user limit reached. Please upgrade to add more users (current limit: " ++
    toString maxUsers ++ ")"

/-- `handleInviteUser` (part_010, lines 399-444): compares the number of
user documents in the organization — with no filter on `status` — against
`subscription.max_users`.  The invitation itself is stubbed ("in
production, would create invitation and send email"), so no user or
invitation record is ever written. -/
def handleInviteUser (s : Store) (claims : UserClaims)
    (email role message : String) : Store × Nat × Option String :=
  match getOrganization s claims.organizationId with
  | none => (s, 500, some "failed to get organization")
  | some org =>
      let users := listUsersByOrganization s claims.organizationId
      if (users.length : Int) ≥ org.subscription.maxUsers then
        (s, 403, some (userLimitMessage org.subscription.maxUsers))
      else
        (s, 200, none)

/-- `handleUpdateUserRole` (part_010, lines 447-493): looks the target up in
the global `users` collection, rejects a cross-tenant target with 403
"user not in your organization" (after the lookup succeeded), then writes
the new role.  No audit entry is written on this path. -/
def handleUpdateUserRole (s : Store) (claims : UserClaims)
    (userId role : String) (now : Int) : Store × Nat × Option String :=
  match getUser s userId with
  | none => (s, 404, some "user not found")
  | some user =>
      if user.organizationId ≠ claims.organizationId then
        (s, 403, some "user not in your organization")
      else
        let user := { user with role := role }
        let s := updateUser s user now
        (s, 200, none)

/-- `handleDeleteUser` (part_010, lines 496-537): forbids self-deletion,
looks the target up globally, rejects a cross-tenant target with 403, then
soft deletes by setting `status = "inactive"` (the Firebase-side deletion
is external).  No audit entry is written on this path. -/
def handleDeleteUser (s : Store) (claims : UserClaims) (userId : String)
    (now : Int) : Store × Nat × Option String :=
  if userId = claims.uid then
    (s, 400, some "cannot delete your own account")
  else
    match getUser s userId with
    | none => (s, 404, some "user not found")
    | some user =>
        if user.organizationId ≠ claims.organizationId then
          (s, 403, some "user not in your organization")
        else
          let user := { user with status := "inactive" }
          let s := updateUser s user now
          (s, 200, none)

/-- `handleGenerateReport` (part_009, lines 115-179): validates the report
type, records a pending report, and appends one audit entry.  The PDF
generation itself is external (stubbed Pub/Sub publish). -/
def handleGenerateReport (s : Store) (claims : UserClaims)
    (reportType title description : String) (requirementIds : List String)
    (newId : String) (now : Int) : Store × Nat × Option String :=
  if reportType ≠ "requirement_detail" ∧ reportType ≠ "comprehensive" then
    (s, 400, some "invalid report type")
  else
    let report : Report :=
      { id := ""
        organizationId := claims.organizationId
        title := title
        description := description
        reportType := reportType
        requirementIds := requirementIds
        status := "pending"
        fileURL := ""
        generatedBy := claims.uid
        createdAt := 0 }
    let (s, report) := createReport s report newId now
    let s := createAuditLog s
      { organizationId := claims.organizationId
        timestamp := 0
        userId := claims.uid
        userEmail := claims.email
        action := "report_generated"
        resourceType := "report"
        resourceId := report.id
        description := "Generated " ++ reportType ++ " report: " ++ title } now
    (s, 202, none)

/-- `handleGetReport` (part_009, lines 197-215): reads one report. -/
def handleGetReport (s : Store) (claims : UserClaims) (reportId : String) :
    Store × Nat × Option String :=
  match getReport s claims.organizationId reportId with
  | none => (s, 404, some "report not found")
  | some _ => (s, 200, none)

/-- A convenient fully-concrete requirement for instantiating theorems. -/
def sampleRequirement : Requirement :=
  { id := "r1"
    organizationId := "orgA"
    templateId := "sec-ria-001"
    title := "Code of Ethics"
    description := "Annual acknowledgement"
    category := "policy_management"
    authority := "SEC Rule 204A-1"
    evidenceTypes := ["policy_document"]
    frequency := "annual"
    status := .notStarted
    nextDueDate := none
    lastCompletedDate := none
    evidenceCount := 0
    notes := ""
    activatedAt := 0
    activatedBy := "u1"
    updatedAt := 0
    updatedBy := ""
    isActive := true }

/-- A fully-concrete evidence record used to instantiate theorems. -/
def sampleEvidence : Evidence :=
  { id := "e1"
    organizationId := "orgA"
    title := "Code of Ethics Ack 2025"
    description := ""
    source := "manual_upload"
    evidenceDate := 100
    fileURL := "orgA/evidence/e1-ack.pdf"
    fileName := "ack.pdf"
    fileSize := 1024
    fileType := "application/pdf"
    requirementIds := ["r1"]
    uploadedBy := "uA"
    createdAt := 0
    updatedAt := 0
    status := "active" }

/-- Claims of an admin of tenant "orgA". -/
def claimsA : UserClaims :=
  { uid := "uA"
    email := "admin@acme.test"
    emailVerified := true
    organizationId := "orgA"
    role := "admin" }

/-- Claims of an admin of a different tenant "orgB". -/
def claimsB : UserClaims :=
  { uid := "uB"
    email := "admin@other.test"
    emailVerified := true
    organizationId := "orgB"
    role := "admin" }

/-- A concrete organization with an adjustable seat limit. -/
def mkOrg (id : String) (maxUsers : Int) : Organization :=
  { id := id
    name := "Acme RIA"
    industry := "financial_services"
    employeeCount := "11-25"
    regulatoryFramework := "sec_ria"
    website := ""
    address := ""
    phone := ""
    subscription := { tier := "starter", status := "trial", cancelAtPeriodEnd := false, maxUsers := maxUsers }
    createdAt := 0
    updatedAt := 0
    updatedBy := ""
    activeUserCount := 1 }

/-- A concrete user record. -/
def mkUser (uid orgId status : String) : User :=
  { uid := uid
    email := uid ++ "@acme.test"
    fullName := "User " ++ uid
    organizationId := orgId
    role := "viewer"
    status := status
    emailVerified := true
    createdAt := 0
    updatedAt := 0
    lastLoginAt := none }

/-- The empty document store. -/
def emptyStore : Store :=
  { organizations := []
    users := []
    requirements := []
    evidence := []
    auditLogs := []
    reports := []
    templates := [] }

/-! ## Concrete stores for counterexamples and witnesses -/

/-- Store with one pending (uploading) evidence item and one requirement with
`evidence_count = 0`: the state right after `handleGenerateUploadURL`. -/
def uploadingStore : Store :=
  { emptyStore with
    requirements := [sampleRequirement]
    evidence := [{ sampleEvidence with status := "uploading", requirementIds := [] }] }

/-- Store with one active evidence item associated to requirement "r1"
(count 1), plus an unrelated requirement "r2" (count 4) and an unassociated
active evidence item "e2". -/
def activeStore : Store :=
  { emptyStore with
    requirements := [{ sampleRequirement with evidenceCount := 1 },
                     { sampleRequirement with id := "r2", evidenceCount := 4 }]
    evidence := [sampleEvidence, { sampleEvidence with id := "e2", requirementIds := [] }] }

/-- Store with a single user "u1" belonging to tenant "orgA". -/
def userStore : Store :=
  { emptyStore with users := [mkUser "u1" "orgA" "active"] }

/-- Store for the seat-limit check: tenant "orgA" with `max_users = 1` and
one single user record whose status is "inactive". -/
def seatStore : Store :=
  { emptyStore with
    organizations := [mkOrg "orgA" 1]
    users := [mkUser "u1" "orgA" "inactive"] }

/-- Store with one requirement "r1" (no due date, count 0) for tenant "orgA". -/
def reqStore : Store :=
  { emptyStore with requirements := [sampleRequirement] }

/-! ## Helper lemmas -/

/-- One decrement step on a single requirement record, as applied pointwise
by `decrementRequirementEvidenceCount`. -/
def decStep (o : String) (now : Int) (rq : Requirement) (reqId : String) : Requirement :=
  if reqKey o reqId rq then { rq with evidenceCount := rq.evidenceCount - 1, updatedAt := now }
  else rq

theorem decrement_requirements (s : Store) (o reqId : String) (now : Int) :
    (decrementRequirementEvidenceCount s o reqId now).requirements
      = s.requirements.map (fun rq => decStep o now rq reqId) := rfl

theorem decrement_evidence (s : Store) (o reqId : String) (now : Int) :
    (decrementRequirementEvidenceCount s o reqId now).evidence = s.evidence := rfl

theorem decrement_auditLogs (s : Store) (o reqId : String) (now : Int) :
    (decrementRequirementEvidenceCount s o reqId now).auditLogs = s.auditLogs := rfl

theorem foldl_decrement_requirements (ids : List String) (o : String) (now : Int) (s : Store) :
    (ids.foldl (fun t reqId => decrementRequirementEvidenceCount t o reqId now) s).requirements
      = s.requirements.map (fun rq => ids.foldl (decStep o now) rq) := by
  induction ids generalizing s with
  | nil => simp
  | cons r ids ih =>
      simp only [List.foldl_cons]
      rw [ih, decrement_requirements, List.map_map]
      rfl

theorem foldl_decrement_evidence (ids : List String) (o : String) (now : Int) (s : Store) :
    (ids.foldl (fun t reqId => decrementRequirementEvidenceCount t o reqId now) s).evidence
      = s.evidence := by
  induction ids generalizing s with
  | nil => rfl
  | cons r ids ih => rw [List.foldl_cons, ih, decrement_evidence]

theorem foldl_decrement_auditLogs (ids : List String) (o : String) (now : Int) (s : Store) :
    (ids.foldl (fun t reqId => decrementRequirementEvidenceCount t o reqId now) s).auditLogs
      = s.auditLogs := by
  induction ids generalizing s with
  | nil => rfl
  | cons r ids ih => rw [List.foldl_cons, ih, decrement_auditLogs]

theorem decStep_of_ne (o : String) (now : Int) (rq : Requirement) (reqId : String)
    (h : rq.id ≠ reqId) : decStep o now rq reqId = rq := by
  simp [decStep, reqKey, h]

theorem decRun_of_not_mem (o : String) (now : Int) (rq : Requirement) (ids : List String)
    (h : rq.id ∉ ids) : ids.foldl (decStep o now) rq = rq := by
  induction ids with
  | nil => rfl
  | cons r ids ih =>
      rw [List.foldl_cons, decStep_of_ne o now rq r (by simp at h; exact h.1)]
      exact ih (by simp at h; exact h.2)

theorem decRun_of_not_org (o : String) (now : Int) (rq : Requirement) (ids : List String)
    (h : rq.organizationId ≠ o) : ids.foldl (decStep o now) rq = rq := by
  induction ids with
  | nil => rfl
  | cons r ids ih =>
      rw [List.foldl_cons]
      have hstep : decStep o now rq r = rq := by simp [decStep, reqKey, h]
      rw [hstep]; exact ih

theorem decRun_of_mem (o : String) (now : Int) (rq : Requirement) (ids : List String)
    (hnd : ids.Nodup) (hmem : rq.id ∈ ids) (horg : rq.organizationId = o) :
    ids.foldl (decStep o now) rq
      = { rq with evidenceCount := rq.evidenceCount - 1, updatedAt := now } := by
  induction ids with
  | nil => cases hmem
  | cons r ids ih =>
      rw [List.foldl_cons]
      rcases List.mem_cons.mp hmem with heq | htail
      · have hstep : decStep o now rq r
            = { rq with evidenceCount := rq.evidenceCount - 1, updatedAt := now } := by
          simp [decStep, reqKey, horg, heq]
        rw [hstep]
        exact decRun_of_not_mem o now _ ids (by
          simpa [heq] using (List.nodup_cons.mp hnd).1)
      · have hne : rq.id ≠ r := by
          intro h; exact (List.nodup_cons.mp hnd).1 (h ▸ htail)
        rw [decStep_of_ne o now rq r hne]
        exact ih (List.nodup_cons.mp hnd).2 htail

/-- The net pointwise effect of the decrement loop on a requirement record,
for a duplicate-free association list. -/
theorem decRun_eq (o : String) (now : Int) (ids : List String) (hnd : ids.Nodup)
    (rq : Requirement) :
    ids.foldl (decStep o now) rq
      = (if rq.organizationId = o ∧ rq.id ∈ ids then
          { rq with evidenceCount := rq.evidenceCount - 1, updatedAt := now }
         else rq) := by
  by_cases horg : rq.organizationId = o
  · by_cases hmem : rq.id ∈ ids
    · rw [decRun_of_mem o now rq ids hnd hmem horg, if_pos ⟨horg, hmem⟩]
    · rw [decRun_of_not_mem o now rq ids hmem, if_neg (by tauto)]
  · rw [decRun_of_not_org o now rq ids horg, if_neg (by tauto)]

/-! ## Claim C2 — status derivation table -/

/-- Claim C2 is false as stated: with evidence_count = 1 and a due date one
hour in the past (due = -3600, now = 0), the claim's table demands
NonCompliant ("past due date gives NonCompliant"), but `CalculateStatus`
truncates `Hours()/24` toward zero, so `daysUntilDue = 0` and the code
returns AtRisk. -/
theorem claim_C2_counterexample :
    Requirement.calculateStatus
        { sampleRequirement with evidenceCount := 1, nextDueDate := some (-3600) } 0
      = .atRisk
    ∧ RequirementStatus.atRisk ≠ .nonCompliant := by
  constructor
  · decide
  · decide

/-- Claim C2 (amended): the derived status is a pure function of
(evidence_count, next_due_date, now) satisfying the spec's table with the
day difference computed as the integer truncation
`daysUntilDue = tdiv (due - now) 86400`: count = 0 gives NotStarted for any
due date; count > 0 with no due date gives Compliant; count > 0 with
`daysUntilDue < 0` (due at least one full day in the past) gives
NonCompliant; count > 0 with `0 ≤ daysUntilDue ≤ 7` (due within 7 days,
including a due date less than 24 hours past) gives AtRisk; count > 0 with
`daysUntilDue > 7` gives Compliant. -/
theorem claim_C2_status_table (r : Requirement) (now : Int) :
    (r.evidenceCount = 0 → r.calculateStatus now = .notStarted)
    ∧ (0 < r.evidenceCount → r.nextDueDate = none → r.calculateStatus now = .compliant)
    ∧ (∀ d, 0 < r.evidenceCount → r.nextDueDate = some d →
        Int.tdiv (d - now) 86400 < 0 → r.calculateStatus now = .nonCompliant)
    ∧ (∀ d, 0 < r.evidenceCount → r.nextDueDate = some d →
        0 ≤ Int.tdiv (d - now) 86400 → Int.tdiv (d - now) 86400 ≤ 7 →
        r.calculateStatus now = .atRisk)
    ∧ (∀ d, 0 < r.evidenceCount → r.nextDueDate = some d →
        7 < Int.tdiv (d - now) 86400 → r.calculateStatus now = .compliant) := by
  refine ⟨?_, ?_, ?_, ?_, ?_⟩
  · intro h0
    simp [Requirement.calculateStatus, h0]
  · intro hpos hnone
    have h0 : ¬r.evidenceCount = 0 := by omega
    simp [Requirement.calculateStatus, hnone, hpos, h0]
  · intro d hpos hdue hneg
    simp only [Requirement.calculateStatus, hdue]
    rw [if_neg (by omega), if_pos hneg]
  · intro d hpos hdue h0 h7
    simp only [Requirement.calculateStatus, hdue]
    rw [if_neg (by omega), if_neg (by omega), if_pos h7]
  · intro d hpos hdue h7
    simp only [Requirement.calculateStatus, hdue]
    rw [if_neg (by omega), if_neg (by omega), if_neg (by omega), if_pos hpos]

/-- Witness for C2 (amended): concrete rows of the table — count 0 gives
NotStarted, and count 1 with a due date three days ahead gives AtRisk. -/
theorem claim_C2_status_table_witness :
    Requirement.calculateStatus sampleRequirement 0 = .notStarted
    ∧ Requirement.calculateStatus
        { sampleRequirement with evidenceCount := 1, nextDueDate := some 259200 } 0
      = .atRisk :=
  ⟨(claim_C2_status_table sampleRequirement 0).1 rfl,
   (claim_C2_status_table _ 0).2.2.2.1 259200 (by decide) rfl (by decide) (by decide)⟩

/-! ## Claim C10 — InProgress is unreachable for non-negative counts -/

/-- Claim C10: for every requirement with evidence_count ≥ 0 the status
derivation never returns InProgress (its range is restricted to
NotStarted / Compliant / AtRisk / NonCompliant), and the InProgress branch
is reachable only when evidence_count is negative. -/
theorem claim_C10_in_progress_unreachable :
    (∀ (r : Requirement) (now : Int), 0 ≤ r.evidenceCount →
        r.calculateStatus now = .notStarted ∨ r.calculateStatus now = .compliant
        ∨ r.calculateStatus now = .atRisk ∨ r.calculateStatus now = .nonCompliant)
    ∧ (∀ (r : Requirement) (now : Int), r.calculateStatus now = .inProgress →
        r.evidenceCount < 0) := by
  have key : ∀ (r : Requirement) (now : Int), r.calculateStatus now = .inProgress →
      r.evidenceCount < 0 := by
    intro r now h
    rcases hdue : r.nextDueDate with _ | d
    · simp only [Requirement.calculateStatus, hdue] at h
      by_cases h0 : r.evidenceCount = 0
      · rw [if_pos h0] at h; cases h
      · rw [if_neg h0] at h
        by_cases hpos : r.evidenceCount > 0
        · rw [if_pos hpos] at h; cases h
        · rw [if_neg hpos] at h; cases h
    · simp only [Requirement.calculateStatus, hdue] at h
      by_cases h0 : r.evidenceCount = 0
      · rw [if_pos h0] at h; cases h
      · rw [if_neg h0] at h
        by_cases hneg : Int.tdiv (d - now) 86400 < 0
        · rw [if_pos hneg] at h; cases h
        · rw [if_neg hneg] at h
          by_cases h7 : Int.tdiv (d - now) 86400 ≤ 7
          · rw [if_pos h7] at h; cases h
          · rw [if_neg h7] at h
            by_cases hpos : r.evidenceCount > 0
            · rw [if_pos hpos] at h; cases h
            · omega
  refine ⟨?_, key⟩
  intro r now hnn
  cases h : r.calculateStatus now with
  | notStarted => exact Or.inl rfl
  | compliant => exact Or.inr (Or.inl rfl)
  | atRisk => exact Or.inr (Or.inr (Or.inl rfl))
  | nonCompliant => exact Or.inr (Or.inr (Or.inr rfl))
  | inProgress => exact absurd (key r now h) (by omega)

/-- Witness for C10 at a concrete requirement with count 2 and a due date
ten days ahead. -/
theorem claim_C10_witness :
    Requirement.calculateStatus
        { sampleRequirement with evidenceCount := 2, nextDueDate := some 864000 } 0
      = .notStarted
    ∨ Requirement.calculateStatus
        { sampleRequirement with evidenceCount := 2, nextDueDate := some 864000 } 0
      = .compliant
    ∨ Requirement.calculateStatus
        { sampleRequirement with evidenceCount := 2, nextDueDate := some 864000 } 0
      = .atRisk
    ∨ Requirement.calculateStatus
        { sampleRequirement with evidenceCount := 2, nextDueDate := some 864000 } 0
      = .nonCompliant :=
  claim_C10_in_progress_unreachable.1
    { sampleRequirement with evidenceCount := 2, nextDueDate := some 864000 } 0 (by decide)

/-! ## Claim C1 — completing an upload does not increment evidence_count -/

/-- Claim C1 fails on the code: from the state right after an upload URL was
issued (evidence "e1" in "uploading" status, requirement "r1" with
evidence_count 0), completing the upload naming requirement "r1" succeeds
(201) and flips the evidence to "active" with the association recorded —
but "r1"'s evidence_count is still 0, not 1.  `handleCreateEvidence` writes
the evidence back through `store.UpdateEvidence`, a plain document `Set`;
the only increment in the store lives in `store.CreateEvidence`, which the
upload flow calls with an empty association list. -/
theorem claim_C1_complete_upload_keeps_count_zero :
    (handleCreateEvidence uploadingStore claimsA "e1" "Code of Ethics Ack 2025" ""
        100 ["r1"] 50).2 = (201, none)
    ∧ ((getEvidence (handleCreateEvidence uploadingStore claimsA "e1"
          "Code of Ethics Ack 2025" "" 100 ["r1"] 50).1 "orgA" "e1").map (·.status)
        = some "active")
    ∧ ((getEvidence (handleCreateEvidence uploadingStore claimsA "e1"
          "Code of Ethics Ack 2025" "" 100 ["r1"] 50).1 "orgA" "e1").map (·.requirementIds)
        = some ["r1"])
    ∧ ((getRequirement (handleCreateEvidence uploadingStore claimsA "e1"
          "Code of Ethics Ack 2025" "" 100 ["r1"] 50).1 "orgA" "r1").map (·.evidenceCount)
        = some 0) := by
  refine ⟨rfl, rfl, rfl, rfl⟩

/-! ## Claim C9 — deletion decrements unconditionally -/

/-- Claim C9: evidence deletion is not idempotent with respect to counters.
From `activeStore` (evidence "e1" active, associated to "r1" with count 1),
the first delete flips "e1" to "deleted" and brings "r1"'s count to 0; a
second delete of the already-deleted item still succeeds and decrements
"r1" again, driving evidence_count to -1. -/
theorem claim_C9_double_delete_goes_negative :
    ((getEvidence (deleteEvidence activeStore "orgA" "e1" 10).1 "orgA" "e1").map (·.status)
        = some "deleted")
    ∧ ((getRequirement (deleteEvidence activeStore "orgA" "e1" 10).1 "orgA" "r1").map
          (·.evidenceCount) = some 0)
    ∧ (deleteEvidence (deleteEvidence activeStore "orgA" "e1" 10).1 "orgA" "e1" 20).2 = true
    ∧ ((getRequirement
          (deleteEvidence (deleteEvidence activeStore "orgA" "e1" 10).1 "orgA" "e1" 20).1
          "orgA" "r1").map (·.evidenceCount) = some (-1)) := by
  refine ⟨rfl, rfl, rfl, rfl⟩

/-! ## Claim C5 — evidence deletion is a soft delete with exact decrements -/

/-- Claim C5: deleting an active evidence item is a soft delete.  The
evidence record is retained (file reference included) with only its status
flipped to "deleted"; every requirement of the tenant whose id is in the
item's association set has evidence_count decremented by exactly 1 while
every other requirement is untouched; and the deleted item no longer
appears in `ListEvidence`. -/
theorem claim_C5_soft_delete (s : Store) (e : Evidence) (now : Int)
    (hget : getEvidence s e.organizationId e.id = some e)
    (hactive : e.status = "active")
    (hnd : e.requirementIds.Nodup) :
    ((deleteEvidence s e.organizationId e.id now).1.evidence
        = s.evidence.map (fun ev =>
            if evKey e.organizationId e.id ev then
              { ev with status := "deleted", updatedAt := now }
            else ev))
    ∧ ((deleteEvidence s e.organizationId e.id now).1.requirements
        = s.requirements.map (fun rq =>
            if rq.organizationId = e.organizationId ∧ rq.id ∈ e.requirementIds then
              { rq with evidenceCount := rq.evidenceCount - 1, updatedAt := now }
            else rq))
    ∧ (∀ ev' ∈ listEvidence (deleteEvidence s e.organizationId e.id now).1
          e.organizationId none, ev'.id ≠ e.id) := by
  have hev : (deleteEvidence s e.organizationId e.id now).1.evidence
      = s.evidence.map (fun ev =>
          if evKey e.organizationId e.id ev then
            { ev with status := "deleted", updatedAt := now }
          else ev) := by
    simp only [deleteEvidence, hget]
    rw [foldl_decrement_evidence]
  have hreq : (deleteEvidence s e.organizationId e.id now).1.requirements
      = s.requirements.map (fun rq =>
          if rq.organizationId = e.organizationId ∧ rq.id ∈ e.requirementIds then
            { rq with evidenceCount := rq.evidenceCount - 1, updatedAt := now }
          else rq) := by
    simp only [deleteEvidence, hget]
    rw [foldl_decrement_requirements]
    have hfun : (fun rq => e.requirementIds.foldl (decStep e.organizationId now) rq)
        = (fun rq => if rq.organizationId = e.organizationId ∧ rq.id ∈ e.requirementIds then
            { rq with evidenceCount := rq.evidenceCount - 1, updatedAt := now }
          else rq) :=
      funext (decRun_eq e.organizationId now e.requirementIds hnd)
    rw [hfun]
  refine ⟨hev, hreq, ?_⟩
  intro ev' hmem
  simp only [listEvidence, List.mem_filter, hev, List.mem_map] at hmem
  obtain ⟨⟨ev, hevmem, heq⟩, hfilt⟩ := hmem
  by_cases hkey : evKey e.organizationId e.id ev
  · rw [if_pos hkey] at heq
    rw [← heq] at hfilt
    simp at hfilt
  · rw [if_neg hkey] at heq
    subst heq
    simp only [Bool.and_eq_true, beq_iff_eq] at hfilt
    intro hid
    exact hkey (by simp [evKey, hid, hfilt.1.1])

/-- Witness for C5: on `activeStore`, deleting evidence "e1" (associated to
"r1") removes it from the active list. -/
theorem claim_C5_soft_delete_witness :
    getEvidence activeStore "orgA" "e1" = some sampleEvidence
    ∧ sampleEvidence.status = "active"
    ∧ sampleEvidence.requirementIds.Nodup
    ∧ (∀ ev' ∈ listEvidence (deleteEvidence activeStore "orgA" "e1" 10).1 "orgA" none,
        ev'.id ≠ "e1") :=
  ⟨rfl, rfl, by decide,
    (claim_C5_soft_delete activeStore sampleEvidence 10 rfl rfl (by decide)).2.2⟩

/-! ## Claim C7 — requirement update touches only the mutable fields -/

/-- Claim C7 is false as stated: the update handler decodes the supplied
`next_due_date` but never applies it.  On `reqStore` (requirement "r1" with
no due date), updating with notes "new notes" and due date 1000 leaves
`next_due_date` at `none`, not the supplied `some 1000`. -/
theorem claim_C7_counterexample :
    ((getRequirement (handleUpdateRequirement reqStore claimsA "r1" "new notes"
        (some 1000) .compliant 5).1 "orgA" "r1").map (·.nextDueDate) = some none)
    ∧ some (none : Option Int) ≠ some (some (1000 : Int)) := by
  refine ⟨rfl, by decide⟩

/-- Claim C7 (amended): for an existing requirement, the update operation
writes only `notes` (plus the `updated_by` / `updated_at` bookkeeping
fields): the supplied due date is parsed but ignored, and every
template-derived field (title, description, category, authority, evidence
types, frequency), the due dates and the evidence_count keep the values of
the stored record; all other requirements and all evidence are untouched. -/
theorem claim_C7_update_mutates_notes_only (s : Store) (claims : UserClaims)
    (reqId notes : String) (dueDate : Option Int) (statusField : RequirementStatus)
    (now : Int) (rq : Requirement)
    (hget : getRequirement s claims.organizationId reqId = some rq) :
    ((handleUpdateRequirement s claims reqId notes dueDate statusField now).1.requirements
        = s.requirements.map (fun r =>
            if reqKey claims.organizationId reqId r then
              { rq with notes := notes, updatedBy := claims.uid, updatedAt := now }
            else r))
    ∧ ((handleUpdateRequirement s claims reqId notes dueDate statusField now).1.evidence
        = s.evidence)
    ∧ ((handleUpdateRequirement s claims reqId notes dueDate statusField now).2
        = (200, none)) := by
  have hkey : reqKey claims.organizationId reqId rq = true := List.find?_some hget
  have hmem : rq ∈ s.requirements := List.mem_of_find?_eq_some hget
  have hkey' := hkey
  simp only [reqKey, Bool.and_eq_true, beq_iff_eq] at hkey'
  obtain ⟨horg, hid⟩ := hkey'
  refine ⟨?_, ?_, ?_⟩
  · simp only [handleUpdateRequirement, hget, updateRequirement, createAuditLog]
    rw [if_pos]
    · simp only [horg, hid]
    · simp only [horg, hid]
      exact List.any_eq_true.mpr ⟨rq, hmem, hkey⟩
  · simp only [handleUpdateRequirement, hget, updateRequirement, createAuditLog]
  · simp only [handleUpdateRequirement, hget]

/-- Witness for C7 (amended): a concrete update on `reqStore` leaves the
evidence collection untouched and succeeds with 200. -/
theorem claim_C7_update_mutates_notes_only_witness :
    getRequirement reqStore "orgA" "r1" = some sampleRequirement
    ∧ (handleUpdateRequirement reqStore claimsA "r1" "n2" none .compliant 5).1.evidence
        = reqStore.evidence
    ∧ (handleUpdateRequirement reqStore claimsA "r1" "n2" none .compliant 5).2
        = (200, none) :=
  ⟨rfl,
   (claim_C7_update_mutates_notes_only reqStore claimsA "r1" "n2" none .compliant 5
      sampleRequirement rfl).2.1,
   (claim_C7_update_mutates_notes_only reqStore claimsA "r1" "n2" none .compliant 5
      sampleRequirement rfl).2.2⟩

/-! ## Claim C8 — evidence update replaces associations without rebalancing -/

/-- Claim C8: for an active evidence item, the update operation replaces
the requirement-association set with the supplied one but leaves the entire
requirements collection — in particular every evidence_count — exactly as it
was: no counter is incremented or decremented for added or removed
associations. -/
theorem claim_C8_update_no_rebalance (s : Store) (claims : UserClaims)
    (evidenceId title description : String) (requirementIds : List String)
    (now : Int) (ev : Evidence)
    (hget : getEvidence s claims.organizationId evidenceId = some ev)
    (hactive : ev.status = "active") :
    ((handleUpdateEvidence s claims evidenceId title description requirementIds now).1.requirements
        = s.requirements)
    ∧ ((handleUpdateEvidence s claims evidenceId title description requirementIds now).1.evidence
        = s.evidence.map (fun e =>
            if evKey claims.organizationId evidenceId e then
              { ev with title := title, description := description,
                        requirementIds := requirementIds, updatedAt := now }
            else e)) := by
  have hkey : evKey claims.organizationId evidenceId ev = true := List.find?_some hget
  have hmem : ev ∈ s.evidence := List.mem_of_find?_eq_some hget
  have hkey' := hkey
  simp only [evKey, Bool.and_eq_true, beq_iff_eq] at hkey'
  obtain ⟨horg, hid⟩ := hkey'
  constructor
  · simp only [handleUpdateEvidence, hget, updateEvidence, createAuditLog]
  · simp only [handleUpdateEvidence, hget, updateEvidence, createAuditLog]
    rw [if_pos]
    · simp only [horg, hid]
    · simp only [horg, hid]
      exact List.any_eq_true.mpr ⟨ev, hmem, hkey⟩

/-- Witness for C8: on `activeStore`, re-associating "e1" from ["r1"] to
["r2"] leaves the requirements collection (counts included) unchanged. -/
theorem claim_C8_update_no_rebalance_witness :
    getEvidence activeStore "orgA" "e1" = some sampleEvidence
    ∧ sampleEvidence.status = "active"
    ∧ (handleUpdateEvidence activeStore claimsA "e1" "T" "D" ["r2"] 7).1.requirements
        = activeStore.requirements :=
  ⟨rfl, rfl,
   (claim_C8_update_no_rebalance activeStore claimsA "e1" "T" "D" ["r2"] 7
      sampleEvidence rfl rfl).1⟩

/-! ## Claim C6 — seat-limit check -/

/-- Claim C6 is false as stated: on `seatStore` (limit 1, a single user
record whose status is "inactive"), the number of active users is 0, below
the limit — yet the invite fails with the capacity error, because
`handleInviteUser` counts every user document of the organization
regardless of status. -/
theorem claim_C6_counterexample :
    (((seatStore.users.filter (fun u => u.status == "active")).length : Int) < 1)
    ∧ ((getOrganization seatStore "orgA").map (fun o => o.subscription.maxUsers) = some 1)
    ∧ handleInviteUser seatStore claimsA "new@acme.test" "viewer" "welcome"
        = (seatStore, 403, some (userLimitMessage 1)) := by
  refine ⟨by decide, rfl, rfl⟩

/-- Claim C6 (amended): the seat-limit check compares the total number of
user records of the tenant — active, pending and inactive alike — against
`subscription.max_users`.  When that total has reached the limit the invite
fails with a capacity error naming the current limit; otherwise it
succeeds.  Pending invitations are never stored at all (the invitation is
stubbed), so they indeed never count. -/
theorem claim_C6_seat_limit (s : Store) (claims : UserClaims)
    (email role message : String) (org : Organization)
    (hget : getOrganization s claims.organizationId = some org) :
    (((listUsersByOrganization s claims.organizationId).length : Int)
          ≥ org.subscription.maxUsers →
        handleInviteUser s claims email role message
          = (s, 403, some (userLimitMessage org.subscription.maxUsers)))
    ∧ (((listUsersByOrganization s claims.organizationId).length : Int)
          < org.subscription.maxUsers →
        handleInviteUser s claims email role message = (s, 200, none)) := by
  constructor
  · intro hge
    simp only [handleInviteUser, hget]
    rw [if_pos hge]
  · intro hlt
    simp only [handleInviteUser, hget]
    rw [if_neg (by omega)]

/-- Witness for C6 (amended): on `seatStore` the total user count (1)
reaches the limit (1) and the invite fails with the capacity error naming
the limit. -/
theorem claim_C6_seat_limit_witness :
    getOrganization seatStore "orgA" = some (mkOrg "orgA" 1)
    ∧ handleInviteUser seatStore claimsA "new@acme.test" "viewer" "welcome"
        = (seatStore, 403, some (userLimitMessage 1)) :=
  ⟨rfl,
   (claim_C6_seat_limit seatStore claimsA "new@acme.test" "viewer" "welcome"
      (mkOrg "orgA" 1) rfl).1 (by decide)⟩

/-! ## Claim C3 — tenant isolation and not-found indistinguishability -/

/-- Claim C3 is false as stated: with user "u1" owned by tenant "orgA", a
role-change request from tenant "orgB" is answered 403 "user not in your
organization", while the same request against a nonexistent user id is
answered 404 "user not found" — distinguishable responses, leaking that the
user id exists in another tenant. -/
theorem claim_C3_counterexample :
    handleUpdateUserRole userStore claimsB "u1" "admin" 5
        = (userStore, 403, some "user not in your organization")
    ∧ handleUpdateUserRole userStore claimsB "nosuchuser" "admin" 5
        = (userStore, 404, some "user not found")
    ∧ (((403 : Nat), (some "user not in your organization" : Option String))
        ≠ ((404 : Nat), (some "user not found" : Option String))) := by
  refine ⟨rfl, rfl, by decide⟩

/-- Claim C3 (amended): for requirements, evidence and reports — all stored
under tenant-scoped document paths — a lookup from a tenant that does not
own the entity misses, and every handler answers a missed lookup with the
same constant not-found response it gives for an id that does not exist at
all; for users, stored in a global collection, a cross-tenant target is
instead rejected with 403 "user not in your organization", which is
distinguishable from the 404 "user not found" answer for a nonexistent id. -/
theorem claim_C3_isolation :
    (∀ (s : Store) (orgB id : String),
        (∀ rq ∈ s.requirements, rq.id = id → rq.organizationId ≠ orgB) →
        getRequirement s orgB id = none)
    ∧ (∀ (s : Store) (orgB id : String),
        (∀ ev ∈ s.evidence, ev.id = id → ev.organizationId ≠ orgB) →
        getEvidence s orgB id = none)
    ∧ (∀ (s : Store) (orgB id : String),
        (∀ rp ∈ s.reports, rp.id = id → rp.organizationId ≠ orgB) →
        getReport s orgB id = none)
    ∧ (∀ (s : Store) (claims : UserClaims) (id notes : String) (dd : Option Int)
        (stf : RequirementStatus) (now : Int),
        getRequirement s claims.organizationId id = none →
        handleGetRequirement s claims id = (s, 404, some "requirement not found")
        ∧ handleUpdateRequirement s claims id notes dd stf now
            = (s, 404, some "requirement not found")
        ∧ handleDeactivateRequirement s claims id now
            = (s, 404, some "requirement not found"))
    ∧ (∀ (s : Store) (claims : UserClaims) (id title desc : String) (date : Int)
        (ids : List String) (now : Int),
        getEvidence s claims.organizationId id = none →
        handleGetEvidence s claims id now = (s, 404, some "evidence not found")
        ∧ handleCreateEvidence s claims id title desc date ids now
            = (s, 404, some "evidence not found")
        ∧ handleUpdateEvidence s claims id title desc ids now
            = (s, 404, some "evidence not found")
        ∧ handleDeleteEvidence s claims id now = (s, 404, some "evidence not found"))
    ∧ (∀ (s : Store) (claims : UserClaims) (id : String),
        getReport s claims.organizationId id = none →
        handleGetReport s claims id = (s, 404, some "report not found"))
    ∧ (∀ (s : Store) (claims : UserClaims) (userId role : String) (now : Int)
        (u : User),
        getUser s userId = some u →
        u.organizationId ≠ claims.organizationId →
        handleUpdateUserRole s claims userId role now
            = (s, 403, some "user not in your organization")
        ∧ (userId ≠ claims.uid →
            handleDeleteUser s claims userId now
              = (s, 403, some "user not in your organization"))) := by
  refine ⟨?_, ?_, ?_, ?_, ?_, ?_, ?_⟩
  · intro s orgB id h
    exact List.find?_eq_none.mpr (fun rq hmem hp => by
      simp only [reqKey, Bool.and_eq_true, beq_iff_eq] at hp
      exact h rq hmem hp.2 hp.1)
  · intro s orgB id h
    exact List.find?_eq_none.mpr (fun ev hmem hp => by
      simp only [evKey, Bool.and_eq_true, beq_iff_eq] at hp
      exact h ev hmem hp.2 hp.1)
  · intro s orgB id h
    exact List.find?_eq_none.mpr (fun rp hmem hp => by
      simp only [Bool.and_eq_true, beq_iff_eq] at hp
      exact h rp hmem hp.2 hp.1)
  · intro s claims id notes dd stf now hnone
    refine ⟨?_, ?_, ?_⟩ <;>
      simp only [handleGetRequirement, handleUpdateRequirement,
        handleDeactivateRequirement, hnone]
  · intro s claims id title desc date ids now hnone
    refine ⟨?_, ?_, ?_, ?_⟩ <;>
      simp only [handleGetEvidence, handleCreateEvidence, handleUpdateEvidence,
        handleDeleteEvidence, hnone]
  · intro s claims id hnone
    simp only [handleGetReport, hnone]
  · intro s claims userId role now u hget hne
    constructor
    · simp only [handleUpdateUserRole, hget]
      rw [if_pos hne]
    · intro hself
      simp only [handleDeleteUser, hget]
      rw [if_neg hself]
      rw [if_pos hne]

/-- Witness for C3 (amended): on `activeStore` every requirement with id
"r1" belongs to "orgA", so a lookup from "orgB" misses and the read handler
answers the same not-found constant as for a nonexistent id. -/
theorem claim_C3_isolation_witness :
    (∀ rq ∈ activeStore.requirements, rq.id = "r1" → rq.organizationId ≠ "orgB")
    ∧ getRequirement activeStore "orgB" "r1" = none
    ∧ handleGetRequirement activeStore claimsB "r1"
        = (activeStore, 404, some "requirement not found") :=
  ⟨by decide,
   claim_C3_isolation.1 activeStore "orgB" "r1" (by decide),
   (claim_C3_isolation.2.2.2.1 activeStore claimsB "r1" "" none .compliant 0 rfl).1⟩

/-! ## Claim C4 — one synchronous audit entry per state-changing operation -/

theorem deleteEvidence_auditLogs (s : Store) (orgId evidenceId : String) (now : Int) :
    (deleteEvidence s orgId evidenceId now).1.auditLogs = s.auditLogs := by
  unfold deleteEvidence
  cases h : getEvidence s orgId evidenceId with
  | none => rfl
  | some ev =>
      simp only
      rw [foldl_decrement_auditLogs]

/-- The handler appended exactly one audit entry with the given action,
resource type, resource id and (server-assigned) timestamp before
returning. -/
def appendsOneAudit (s s' : Store) (action resourceType resourceId : String)
    (now : Int) : Prop :=
  ∃ l, s'.auditLogs = s.auditLogs ++ [l] ∧ l.action = action
    ∧ l.resourceType = resourceType ∧ l.resourceId = resourceId ∧ l.timestamp = now

/-- Claim C4 is false as stated: changing user "u1"'s role (a state-changing
operation — the stored role flips from "viewer" to "admin" and 200 is
returned) produces no audit entry at all: the audit log stays empty. -/
theorem claim_C4_counterexample :
    (handleUpdateUserRole userStore claimsA "u1" "admin" 5).2 = (200, none)
    ∧ ((handleUpdateUserRole userStore claimsA "u1" "admin" 5).1.users.map (·.role)
        = ["admin"])
    ∧ (handleUpdateUserRole userStore claimsA "u1" "admin" 5).1.auditLogs
        = userStore.auditLogs
    ∧ userStore.auditLogs.length = 0 := by
  refine ⟨rfl, rfl, rfl, rfl⟩

/-- Claim C4 (amended): requirement activation / update / deactivation,
evidence creation / update / deletion, organization update and report
creation each append exactly one audit entry with matching action and
resource, synchronously before the handler returns; but user role change,
user deletion and profile update — all state-changing — append none. -/
theorem claim_C4_audit_per_operation :
    (∀ (s : Store) (claims : UserClaims) (templateId notes newId : String) (now : Int)
        (template : RequirementTemplate),
        getRequirementTemplate s templateId = some template →
        appendsOneAudit s (handleCreateRequirement s claims templateId notes newId now).1
          "requirement_activated" "requirement" newId now)
    ∧ (∀ (s : Store) (claims : UserClaims) (reqId notes : String) (dd : Option Int)
        (stf : RequirementStatus) (now : Int) (rq : Requirement),
        getRequirement s claims.organizationId reqId = some rq →
        appendsOneAudit s (handleUpdateRequirement s claims reqId notes dd stf now).1
          "requirement_updated" "requirement" rq.id now)
    ∧ (∀ (s : Store) (claims : UserClaims) (reqId : String) (now : Int)
        (rq : Requirement),
        getRequirement s claims.organizationId reqId = some rq →
        appendsOneAudit s (handleDeactivateRequirement s claims reqId now).1
          "requirement_deactivated" "requirement" rq.id now)
    ∧ (∀ (s : Store) (claims : UserClaims) (evId title desc : String) (date : Int)
        (ids : List String) (now : Int) (ev : Evidence),
        getEvidence s claims.organizationId evId = some ev →
        appendsOneAudit s (handleCreateEvidence s claims evId title desc date ids now).1
          "evidence_created" "evidence" ev.id now)
    ∧ (∀ (s : Store) (claims : UserClaims) (evId title desc : String)
        (ids : List String) (now : Int) (ev : Evidence),
        getEvidence s claims.organizationId evId = some ev →
        appendsOneAudit s (handleUpdateEvidence s claims evId title desc ids now).1
          "evidence_updated" "evidence" ev.id now)
    ∧ (∀ (s : Store) (claims : UserClaims) (evId : String) (now : Int) (ev : Evidence),
        getEvidence s claims.organizationId evId = some ev →
        appendsOneAudit s (handleDeleteEvidence s claims evId now).1
          "evidence_deleted" "evidence" ev.id now)
    ∧ (∀ (s : Store) (claims : UserClaims)
        (name industry employeeCount regulatoryFramework website address phone : String)
        (now : Int) (org : Organization),
        getOrganization s claims.organizationId = some org →
        appendsOneAudit s
          (handleUpdateOrganization s claims name industry employeeCount
            regulatoryFramework website address phone now).1
          "organization_updated" "organization" org.id now)
    ∧ (∀ (s : Store) (claims : UserClaims) (reportType title desc : String)
        (ids : List String) (newId : String) (now : Int),
        reportType = "requirement_detail" ∨ reportType = "comprehensive" →
        appendsOneAudit s
          (handleGenerateReport s claims reportType title desc ids newId now).1
          "report_generated" "report" newId now)
    ∧ (∀ (s : Store) (claims : UserClaims) (userId role : String) (now : Int),
        (handleUpdateUserRole s claims userId role now).1.auditLogs = s.auditLogs)
    ∧ (∀ (s : Store) (claims : UserClaims) (userId : String) (now : Int),
        (handleDeleteUser s claims userId now).1.auditLogs = s.auditLogs)
    ∧ (∀ (s : Store) (claims : UserClaims) (fullName : String) (now : Int),
        (handleUpdateProfile s claims fullName now).1.auditLogs = s.auditLogs) := by
  refine ⟨?_, ?_, ?_, ?_, ?_, ?_, ?_, ?_, ?_, ?_, ?_⟩
  · intro s claims templateId notes newId now template hget
    simp only [appendsOneAudit, handleCreateRequirement, hget, createRequirement,
      createAuditLog]
    exact ⟨_, rfl, rfl, rfl, rfl, rfl⟩
  · intro s claims reqId notes dd stf now rq hget
    simp only [appendsOneAudit, handleUpdateRequirement, hget, updateRequirement,
      createAuditLog]
    exact ⟨_, rfl, rfl, rfl, rfl, rfl⟩
  · intro s claims reqId now rq hget
    simp only [appendsOneAudit, handleDeactivateRequirement, hget, updateRequirement,
      createAuditLog]
    exact ⟨_, rfl, rfl, rfl, rfl, rfl⟩
  · intro s claims evId title desc date ids now ev hget
    simp only [appendsOneAudit, handleCreateEvidence, hget, updateEvidence,
      createAuditLog]
    exact ⟨_, rfl, rfl, rfl, rfl, rfl⟩
  · intro s claims evId title desc ids now ev hget
    simp only [appendsOneAudit, handleUpdateEvidence, hget, updateEvidence,
      createAuditLog]
    exact ⟨_, rfl, rfl, rfl, rfl, rfl⟩
  · intro s claims evId now ev hget
    simp only [appendsOneAudit, handleDeleteEvidence, hget, createAuditLog,
      deleteEvidence_auditLogs]
    exact ⟨_, rfl, rfl, rfl, rfl, rfl⟩
  · intro s claims name industry employeeCount regulatoryFramework website address
      phone now org hget
    simp only [appendsOneAudit, handleUpdateOrganization, hget, updateOrganization,
      createAuditLog]
    exact ⟨_, rfl, rfl, rfl, rfl, rfl⟩
  · intro s claims reportType title desc ids newId now htype
    have hcond : ¬(reportType ≠ "requirement_detail" ∧ reportType ≠ "comprehensive") := by
      tauto
    simp only [appendsOneAudit, handleGenerateReport, createReport, createAuditLog]
    rw [if_neg hcond]
    exact ⟨_, rfl, rfl, rfl, rfl, rfl⟩
  · intro s claims userId role now
    unfold handleUpdateUserRole
    cases h : getUser s userId with
    | none => rfl
    | some u =>
        simp only
        split
        · rfl
        · rfl
  · intro s claims userId now
    unfold handleDeleteUser
    split
    · rfl
    · cases h : getUser s userId with
      | none => rfl
      | some u =>
          simp only
          split
          · rfl
          · rfl
  · intro s claims fullName now
    unfold handleUpdateProfile
    cases h : getUser s claims.uid with
    | none => rfl
    | some u => rfl

/-- Witness for C4 (amended): on `reqStore`, a concrete requirement update
appends exactly one `requirement_updated` audit entry. -/
theorem claim_C4_audit_per_operation_witness :
    getRequirement reqStore "orgA" "r1" = some sampleRequirement
    ∧ appendsOneAudit reqStore
        (handleUpdateRequirement reqStore claimsA "r1" "n" none .compliant 5).1
        "requirement_updated" "requirement" "r1" 5 :=
  ⟨rfl,
   claim_C4_audit_per_operation.2.1 reqStore claimsA "r1" "n" none .compliant 5
     sampleRequirement rfl⟩

end ComplianceSync
